import Mathlib

/-
Verification of the PyGeoTess binding layer (src/geotess/src/libgeotess.pyx).

The wrapper exposes four proxy classes (GeoTessGrid, GeoTessMetaData,
EarthShape, GeoTessModel), each holding a raw pointer (`thisptr`) to a native
C++ resource.  We embed the wrapper shallowly: native resources live in an
explicit heap (association lists keyed by addresses), proxies hold addresses,
and each Python-visible method of the .pyx file becomes a Lean function on
that state.  The native GeoTess C++ library itself is not part of the
repository sources; where a claim depends on native behaviour, the
corresponding definition is modelled from the spec and says so in its doc
comment.  Doubles are modelled as rationals: none of the claims proved here
depends on floating-point rounding.

Exception classes are mapped to the spec's error taxonomy:
`geotess.exc.GeoTessFileError` is the spec's `FileNotFound`, Python
`ValueError` is the spec's `InvalidArgument`, native parse failures are
`LoadError`, out-of-range queries are `IndexError`.
-/

/-- Error taxonomy of spec section 7, as raised/propagated by the wrapper. -/
inductive GTError where
  | fileNotFound (msg : String)
  | loadError (msg : String)
  | invalidArgument (msg : String)
  | indexError (msg : String)
deriving DecidableEq, Repr

/-- A 3-component geocentric vector (doubles modelled as rationals). -/
abbrev Vec3 : Type := Rat × Rat × Rat

namespace clib

/-- Native grid resource (opaque in the wrapper): counts, per-vertex unit
vectors and a textual description, per spec section 3. -/
structure GeoTessGrid where
  nLevels : Nat
  nTriangles : Nat
  nTessellations : Nat
  vertices : List Vec3
  descr : String
deriving DecidableEq, Repr

/-- Native metadata resource: the fields reachable through the wrapper's
setters (libgeotess.pyx lines 104-130). -/
structure GeoTessMetaData where
  earthShape : String
  descr : String
  layerNames : String
  layerTessIds : List Int
  attrNames : String
  attrUnits : String
  dataType : String
  modelSoftwareVersion : String
  modelGenerationDate : String
deriving DecidableEq, Repr

/-- Native earth-shape resource: an ellipsoid/sphere selector. -/
structure EarthShape where
  name : String
deriving DecidableEq, Repr

/-- Native model resource: addresses of the grid and metadata copies it owns
(absent in a freshly default-constructed model) and of its embedded
earth-shape resource. -/
structure GeoTessModel where
  gridPtr : Option Nat
  metaPtr : Option Nat
  shapePtr : Nat
deriving DecidableEq, Repr

end clib

/-- Heap lookup on an address-keyed association list. -/
def hfind {α : Type} (a : Nat) : List (Nat × α) → Option α
  | [] => none
  | (k, v) :: t => if k = a then some v else hfind a t

/-- In-place update of the resource stored at address `a` (used to model
native mutation through a live pointer). -/
def hset {α : Type} (a : Nat) (v : α) : List (Nat × α) → List (Nat × α)
  | [] => []
  | (k, w) :: t => if k = a then (k, v) :: t else (k, w) :: hset a v t

/-- Deallocation: the entry at address `a` disappears from the heap
(modelling C++ `delete`). -/
def hdel {α : Type} (a : Nat) : List (Nat × α) → List (Nat × α)
  | [] => []
  | (k, w) :: t => if k = a then t else (k, w) :: hdel a t

/-- The native heap: one association list per native resource type, plus an
allocation counter supplying fresh addresses. -/
structure State where
  nextAddr : Nat
  grids : List (Nat × clib.GeoTessGrid)
  metas : List (Nat × clib.GeoTessMetaData)
  shapes : List (Nat × clib.EarthShape)
  models : List (Nat × clib.GeoTessModel)
deriving DecidableEq, Repr

/-- The empty heap. -/
def State.empty : State := ⟨0, [], [], [], []⟩

/-- Well-formedness: every allocated address is below the allocation counter,
so fresh addresses never collide with live ones. -/
def State.WF (σ : State) : Prop :=
  (∀ p ∈ σ.grids, p.1 < σ.nextAddr) ∧
  (∀ p ∈ σ.metas, p.1 < σ.nextAddr) ∧
  (∀ p ∈ σ.shapes, p.1 < σ.nextAddr) ∧
  (∀ p ∈ σ.models, p.1 < σ.nextAddr)

instance (σ : State) : Decidable σ.WF := by unfold State.WF; infer_instance

/-- Content a path can hold: a serialized grid, a serialized model (grid plus
metadata), or bytes that parse as neither. -/
inductive FileContent where
  | gridBlob (g : clib.GeoTessGrid)
  | modelBlob (g : clib.GeoTessGrid) (m : clib.GeoTessMetaData)
  | garbage
deriving DecidableEq, Repr

/-- What the filesystem holds at a path: nothing, a regular file, or a
directory (or other non-file entry). -/
inductive FsEntry where
  | absent
  | file (c : FileContent)
  | dir
deriving DecidableEq, Repr

/-- A filesystem assigns an entry to every path. -/
def Fs : Type := String → FsEntry

/-- The wrapper's `os.path.exists(inputFile)` check (libgeotess.pyx lines 69
and 258): true for any existing entry, file or not. -/
def osPathExists (fs : Fs) (p : String) : Bool :=
  match fs p with
  | .absent => false
  | .file _ => true
  | .dir => true

/-- Modelled from the spec: the native `GeoTessGrid::loadGrid` entry point is
not under src/; per spec sections 4.1 and 6 it parses the file and fails with
a `LoadError` on anything that is not well-formed grid content. -/
def nativeLoadGrid (e : FsEntry) : Except GTError clib.GeoTessGrid :=
  match e with
  | .file (.gridBlob g) => .ok g
  | _ => .error (.loadError "native grid parse failure")

/-- Modelled from the spec: the native `GeoTessModel::loadModel` entry point
is not under src/; per spec sections 4.4 and 6 it parses the file (resolving
grid data embedded or relative to `relGridFilePath`) and fails with a
`LoadError` on anything that is not well-formed model content. -/
def nativeLoadModel (e : FsEntry) (relGridFilePath : String) :
    Except GTError (clib.GeoTessGrid × clib.GeoTessMetaData) :=
  match e, relGridFilePath with
  | .file (.modelBlob g m), _ => .ok (g, m)
  | _, _ => .error (.loadError "native model parse failure")

/-- Modelled from the spec: the native `GeoTessGrid::getVertex` accessor is
not under src/; per spec section 4.1 a vertex query outside the resource's
valid range fails with an `IndexError`. -/
def nativeGetVertex (g : clib.GeoTessGrid) (vertex : Int) : Except GTError Vec3 :=
  if h : 0 ≤ vertex ∧ vertex.toNat < g.vertices.length then
    .ok (g.vertices.get ⟨vertex.toNat, h.2⟩)
  else
    .error (.indexError "vertex index out of range")

/-- The closed set of earth-shape names, spec sections 4.3 and 8. -/
def validEarthShapes : List String :=
  ["SPHERE", "GRS80", "GRS80_RCONST", "WGS84", "WGS84_RCONST"]

/-- Modelled from the spec: the native `EarthShape(name)` constructor is not
under src/; per spec section 4.3 it resolves `name` against the fixed
enumeration and fails with `InvalidArgument` for unrecognized names. -/
def nativeEarthShapeNew (name : String) : Except GTError clib.EarthShape :=
  if name ∈ validEarthShapes then .ok ⟨name⟩
  else .error (.invalidArgument ("unrecognized earth shape " ++ name))


/-- Python proxy class `GeoTessGrid` (libgeotess.pyx lines 58-91): holds the
address of a native grid resource.  `__cinit__` always allocates, so the
pointer is never NULL. -/
structure GeoTessGrid where
  thisptr : Nat
deriving DecidableEq, Repr

/-- `GeoTessGrid.__cinit__` (lines 61-62): `new clib.GeoTessGrid()`, a fresh
empty owned grid resource (native default construction gives an unpopulated
grid; modelled as zero counts, no vertices, empty description). -/
def GeoTessGrid.cinit (s : State) : GeoTessGrid × State :=
  (⟨s.nextAddr⟩,
   { s with nextAddr := s.nextAddr + 1,
            grids := (s.nextAddr, ⟨0, 0, 0, [], ""⟩) :: s.grids })

/-- `GeoTessGrid.__dealloc__` (lines 64-66): deletes the native resource. -/
def GeoTessGrid.dealloc (s : State) (self : GeoTessGrid) : State :=
  { s with grids := hdel self.thisptr s.grids }

/-- `GeoTessGrid.loadGrid` (lines 68-72): checks `os.path.exists(inputFile)`;
if it holds, delegates to the native loader (replacing the resource in place
on success); otherwise raises `GeoTessFileError("File not found.")` without
touching the native layer.  The second component records whether the native
loader was invoked; `none` is the undefined behaviour of dereferencing a dead
pointer. -/
def GeoTessGrid.loadGrid (fs : Fs) (s : State) (self : GeoTessGrid)
    (inputFile : String) : Option ((Except GTError Unit) × State) × Bool :=
  if osPathExists fs inputFile then
    match hfind self.thisptr s.grids with
    | none => (none, true)
    | some _ =>
      match nativeLoadGrid (fs inputFile) with
      | .ok g => (some (.ok (), { s with grids := hset self.thisptr g s.grids }), true)
      | .error e => (some (.error e, s), true)
  else
    (some (.error (.fileNotFound "File not found."), s), false)

/-- `GeoTessGrid.getNLevels` (lines 77-78): pure forward to the native
accessor. -/
def GeoTessGrid.getNLevels (s : State) (self : GeoTessGrid) : Option (Nat × State) :=
  (hfind self.thisptr s.grids).map fun g => (g.nLevels, s)

/-- `GeoTessGrid.getNTriangles` (lines 80-81). -/
def GeoTessGrid.getNTriangles (s : State) (self : GeoTessGrid) : Option (Nat × State) :=
  (hfind self.thisptr s.grids).map fun g => (g.nTriangles, s)

/-- `GeoTessGrid.getNTessellations` (lines 83-84). -/
def GeoTessGrid.getNTessellations (s : State) (self : GeoTessGrid) : Option (Nat × State) :=
  (hfind self.thisptr s.grids).map fun g => (g.nTessellations, s)

/-- `GeoTessGrid.toString` (lines 86-87): the grid's textual description. -/
def GeoTessGrid.toString (s : State) (self : GeoTessGrid) : Option (String × State) :=
  (hfind self.thisptr s.grids).map fun g => (g.descr, s)

/-- `GeoTessGrid.getVertex` (lines 89-91): forwards the `int vertex` index to
the native accessor (see `nativeGetVertex`). -/
def GeoTessGrid.getVertex (s : State) (self : GeoTessGrid) (vertex : Int) :
    Option ((Except GTError Vec3) × State) :=
  (hfind self.thisptr s.grids).map fun g => (nativeGetVertex g vertex, s)

/-- Python proxy class `GeoTessMetaData` (lines 94-133). -/
structure GeoTessMetaData where
  thisptr : Nat
deriving DecidableEq, Repr

/-- `GeoTessMetaData.__cinit__` (lines 97-98): `new clib.GeoTessMetaData()`
(native default construction; the default earth shape of GeoTess metadata is
WGS84, other fields empty). -/
def GeoTessMetaData.cinit (s : State) : GeoTessMetaData × State :=
  (⟨s.nextAddr⟩,
   { s with nextAddr := s.nextAddr + 1,
            metas := (s.nextAddr, ⟨"WGS84", "", "", [], "", "", "", "", ""⟩) :: s.metas })

/-- `GeoTessMetaData.__dealloc__` (lines 100-102). -/
def GeoTessMetaData.dealloc (s : State) (self : GeoTessMetaData) : State :=
  { s with metas := hdel self.thisptr s.metas }

/-- `GeoTessMetaData.setEarthShape` (lines 104-105): mutates the resource in
place through the live pointer. -/
def GeoTessMetaData.setEarthShape (s : State) (self : GeoTessMetaData)
    (earthShapeName : String) : Option State :=
  (hfind self.thisptr s.metas).map fun m =>
    { s with metas := hset self.thisptr { m with earthShape := earthShapeName } s.metas }

/-- `GeoTessMetaData.setDescription` (lines 107-108). -/
def GeoTessMetaData.setDescription (s : State) (self : GeoTessMetaData)
    (dscr : String) : Option State :=
  (hfind self.thisptr s.metas).map fun m =>
    { s with metas := hset self.thisptr { m with descr := dscr } s.metas }

/-- `GeoTessMetaData.setLayerNames` (lines 110-111). -/
def GeoTessMetaData.setLayerNames (s : State) (self : GeoTessMetaData)
    (lyrNms : String) : Option State :=
  (hfind self.thisptr s.metas).map fun m =>
    { s with metas := hset self.thisptr { m with layerNames := lyrNms } s.metas }

/-- `GeoTessMetaData.setLayerTessIds` (lines 113-118). -/
def GeoTessMetaData.setLayerTessIds (s : State) (self : GeoTessMetaData)
    (layrTsIds : List Int) : Option State :=
  (hfind self.thisptr s.metas).map fun m =>
    { s with metas := hset self.thisptr { m with layerTessIds := layrTsIds } s.metas }

/-- `GeoTessMetaData.setAttributes` (lines 120-121). -/
def GeoTessMetaData.setAttributes (s : State) (self : GeoTessMetaData)
    (nms unts : String) : Option State :=
  (hfind self.thisptr s.metas).map fun m =>
    { s with metas := hset self.thisptr { m with attrNames := nms, attrUnits := unts } s.metas }

/-- `GeoTessMetaData.setDataType` (lines 123-124). -/
def GeoTessMetaData.setDataType (s : State) (self : GeoTessMetaData)
    (dt : String) : Option State :=
  (hfind self.thisptr s.metas).map fun m =>
    { s with metas := hset self.thisptr { m with dataType := dt } s.metas }

/-- `GeoTessMetaData.setModelSoftwareVersion` (lines 126-127). -/
def GeoTessMetaData.setModelSoftwareVersion (s : State) (self : GeoTessMetaData)
    (swVersion : String) : Option State :=
  (hfind self.thisptr s.metas).map fun m =>
    { s with metas := hset self.thisptr { m with modelSoftwareVersion := swVersion } s.metas }

/-- `GeoTessMetaData.setModelGenerationDate` (lines 129-130). -/
def GeoTessMetaData.setModelGenerationDate (s : State) (self : GeoTessMetaData)
    (genDate : String) : Option State :=
  (hfind self.thisptr s.metas).map fun m =>
    { s with metas := hset self.thisptr { m with modelGenerationDate := genDate } s.metas }

/-- Python proxy class `EarthShape` (lines 136-215): `thisptr` is NULL
(`none`) exactly when constructed with `raw=True` and not yet pointed at
anything by `wrap`. -/
structure EarthShape where
  thisptr : Option Nat
deriving DecidableEq, Repr

/-- `EarthShape.__cinit__` (lines 162-167): with `raw=True` the wrapper skips
native construction and leaves `thisptr` NULL; otherwise it runs
`new clib.EarthShape(earthShape)` (see `nativeEarthShapeNew`), which can
raise `InvalidArgument`.  Defaults are `earthShape="WGS84"`, `raw=False`. -/
def EarthShape.cinit (s : State) (earthShape : String := "WGS84")
    (raw : Bool := false) : Except GTError (EarthShape × State) :=
  if raw then .ok (⟨none⟩, s)
  else
    match nativeEarthShapeNew earthShape with
    | .ok r => .ok (⟨some s.nextAddr⟩,
        { s with nextAddr := s.nextAddr + 1,
                 shapes := (s.nextAddr, r) :: s.shapes })
    | .error e => .error e

/-- `EarthShape.__dealloc__` (lines 169-171): `if self.thisptr != NULL:
del self.thisptr` — deletes whatever native resource the pointer designates,
with no check of whether this proxy owns it. -/
def EarthShape.dealloc (s : State) (self : EarthShape) : State :=
  match self.thisptr with
  | none => s
  | some a => { s with shapes := hdel a s.shapes }

/-- `EarthShape.wrap` (lines 211-215): builds a `raw` instance and points its
`thisptr` at a caller-supplied native address, without allocating. -/
def EarthShape.wrap (cptr : Nat) : EarthShape :=
  ⟨some cptr⟩

/-- A Python object of tuple shape: its allocation identity plus its numeric
elements.  Used to model the return value of `getVectorDegrees`. -/
structure PyTuple where
  objId : Nat
  elems : List Rat
deriving DecidableEq, Repr

/-- `EarthShape.getVectorDegrees` (lines 194-209): allocates a fresh
`array.array('d', [0.0, 0.0, 0.0])` (one new Python object), has the native
conversion fill its three slots in place, and returns `tuple(v.tolist())` — a
second, freshly allocated Python object carrying the three components.
`native` stands for the native `EarthShape::getVectorDegrees` fill routine
(external geodesy, spec section 6); `pyNext` is the next unused Python object
identity, every identity below it belonging to a previously allocated
object. -/
def EarthShape.getVectorDegrees (native : Rat → Rat → Vec3)
    (pyNext : Nat) (lat lon : Rat) : PyTuple × Nat :=
  let arrId := pyNext
  let v := native lat lon
  (⟨arrId + 1, [v.1, v.2.1, v.2.2]⟩, arrId + 2)

/-- Python proxy class `GeoTessModel` (lines 218-270). -/
structure GeoTessModel where
  thisptr : Nat
deriving DecidableEq, Repr

/-- `GeoTessModel.__cinit__` (lines 230-247).  With neither argument:
`new clib.GeoTessModel()`, an empty model (native default construction; its
metadata's earth shape defaults to WGS84, and the model embeds that shape
resource).  With exactly one argument: `ValueError("Must provide both grid
and metaData")`, before any native work.  With both: copies the two native
resources (`new clib.GeoTessGrid(deref(grid.thisptr))`,
`new clib.GeoTessMetaData(deref(metaData.thisptr))`) and builds the model on
the copies, which it owns; the model's embedded earth-shape resource is
resolved from the metadata copy.  `none` is the undefined behaviour of
dereferencing a dead pointer. -/
def GeoTessModel.cinit (s : State) (grid : Option GeoTessGrid := none)
    (metaData : Option GeoTessMetaData := none) :
    Option (Except GTError (GeoTessModel × State)) :=
  match grid, metaData with
  | none, none =>
      some (.ok (⟨s.nextAddr + 1⟩,
        { s with nextAddr := s.nextAddr + 2,
                 shapes := (s.nextAddr, ⟨"WGS84"⟩) :: s.shapes,
                 models := (s.nextAddr + 1, ⟨none, none, s.nextAddr⟩) :: s.models }))
  | some g, some m =>
      match hfind g.thisptr s.grids, hfind m.thisptr s.metas with
      | some gr, some mr =>
          some (.ok (⟨s.nextAddr + 3⟩,
            { s with nextAddr := s.nextAddr + 4,
                     grids := (s.nextAddr, gr) :: s.grids,
                     metas := (s.nextAddr + 1, mr) :: s.metas,
                     shapes := (s.nextAddr + 2, ⟨mr.earthShape⟩) :: s.shapes,
                     models := (s.nextAddr + 3,
                       ⟨some s.nextAddr, some (s.nextAddr + 1), s.nextAddr + 2⟩)
                       :: s.models }))
      | _, _ => none
  | _, _ => some (.error (.invalidArgument "Must provide both grid and metaData"))

/-- `GeoTessModel.__dealloc__` (lines 249-252): deletes the native model,
which as owner also destroys its grid/metadata copies and embedded shape. -/
def GeoTessModel.dealloc (s : State) (self : GeoTessModel) : State :=
  match hfind self.thisptr s.models with
  | none => { s with models := hdel self.thisptr s.models }
  | some mres =>
      { s with models := hdel self.thisptr s.models,
               grids := match mres.gridPtr with
                        | none => s.grids
                        | some a => hdel a s.grids,
               metas := match mres.metaPtr with
                        | none => s.metas
                        | some a => hdel a s.metas,
               shapes := hdel mres.shapePtr s.shapes }

/-- `GeoTessModel.loadModel` (lines 256-261): checks
`os.path.exists(inputFile)`; if it holds, delegates to the native loader
(which on success repopulates the model with freshly owned grid, metadata and
shape resources); otherwise raises
`GeoTessFileError("Model file not found.")` without touching the native
layer.  The second component records whether the native loader was
invoked. -/
def GeoTessModel.loadModel (fs : Fs) (s : State) (self : GeoTessModel)
    (inputFile : String) (relGridFilePath : String := "") :
    Option ((Except GTError Unit) × State) × Bool :=
  if osPathExists fs inputFile then
    match hfind self.thisptr s.models with
    | none => (none, true)
    | some _ =>
      match nativeLoadModel (fs inputFile) relGridFilePath with
      | .ok (g, m) =>
          (some (.ok (),
            { s with nextAddr := s.nextAddr + 3,
                     grids := (s.nextAddr, g) :: s.grids,
                     metas := (s.nextAddr + 1, m) :: s.metas,
                     shapes := (s.nextAddr + 2, ⟨m.earthShape⟩) :: s.shapes,
                     models := hset self.thisptr
                       ⟨some s.nextAddr, some (s.nextAddr + 1), s.nextAddr + 2⟩
                       s.models }), true)
      | .error e => (some (.error e, s), true)
  else
    (some (.error (.fileNotFound "Model file not found."), s), false)

/-- `GeoTessModel.getEarthShape` (lines 269-270):
`EarthShape.wrap(&self.thisptr.getEarthShape())` — wraps the address of the
earth-shape resource embedded in (and owned by) the model, allocating
nothing. -/
def GeoTessModel.getEarthShape (s : State) (self : GeoTessModel) :
    Option EarthShape :=
  (hfind self.thisptr s.models).map fun mres => EarthShape.wrap mres.shapePtr

/-- Observation used for copy isolation: the description of the grid resource
owned by a model, read through the model proxy. -/
def GeoTessModel.ownedGridDescr (s : State) (self : GeoTessModel) : Option String :=
  (hfind self.thisptr s.models).bind fun mres =>
    mres.gridPtr.bind fun ga => (hfind ga s.grids).map fun g => g.descr

/-- Observation used for copy isolation: the description of the metadata
resource owned by a model, read through the model proxy. -/
def GeoTessModel.ownedMetaDescr (s : State) (self : GeoTessModel) : Option String :=
  (hfind self.thisptr s.models).bind fun mres =>
    mres.metaPtr.bind fun ma => (hfind ma s.metas).map fun m => m.descr

theorem hfind_mem {α : Type} {a : Nat} {v : α} : ∀ {l : List (Nat × α)},
    hfind a l = some v → (a, v) ∈ l := by
  intro l
  induction l with
  | nil => intro h; simp [hfind] at h
  | cons p t ih =>
    obtain ⟨k, w⟩ := p
    intro h
    by_cases hk : k = a
    · subst hk
      simp [hfind] at h
      subst h
      exact List.mem_cons_self _ _
    · rw [hfind, if_neg hk] at h
      exact List.mem_cons_of_mem _ (ih h)

theorem hfind_hset_ne {α : Type} {a b : Nat} (v : α) (hne : a ≠ b) :
    ∀ (l : List (Nat × α)), hfind a (hset b v l) = hfind a l := by
  intro l
  induction l with
  | nil => rfl
  | cons p t ih =>
    obtain ⟨k, w⟩ := p
    by_cases hk : k = b
    · subst hk
      rw [hset, if_pos rfl, hfind, hfind, if_neg (fun h => hne h.symm),
          if_neg (fun h => hne h.symm)]
    · rw [hset, if_neg hk, hfind, hfind]
      by_cases hka : k = a
      · rw [if_pos hka, if_pos hka]
      · rw [if_neg hka, if_neg hka, ih]

/-- C4: constructing a `GeoTessModel` with exactly one of grid/metadata
raises `InvalidArgument` (Python `ValueError`), and with neither argument
succeeds, allocating an empty model. -/
theorem model_cinit_arity (s : State) (g : GeoTessGrid) (m : GeoTessMetaData) :
    GeoTessModel.cinit s (some g) none
      = some (.error (.invalidArgument "Must provide both grid and metaData")) ∧
    GeoTessModel.cinit s none (some m)
      = some (.error (.invalidArgument "Must provide both grid and metaData")) ∧
    ∃ mp s', GeoTessModel.cinit s none none = some (.ok (mp, s')) :=
  ⟨rfl, rfl, ⟨_, _, rfl⟩⟩

/-- C9: `EarthShape.__cinit__` defaults `earthShape` to `"WGS84"`, so
construction with no name argument is construction with `"WGS84"`, and it
succeeds. -/
theorem earthshape_default_is_wgs84 (s : State) :
    EarthShape.cinit s = EarthShape.cinit s "WGS84" ∧
    ∃ p, EarthShape.cinit s = .ok p :=
  ⟨rfl, ⟨_, rfl⟩⟩

/-- C5: `EarthShape` construction succeeds exactly for the five names of the
fixed enumeration and raises `InvalidArgument` for every other string. -/
theorem earthshape_name_resolution (s : State) (name : String) :
    (name ∈ validEarthShapes → ∃ p, EarthShape.cinit s name = .ok p) ∧
    (name ∉ validEarthShapes →
      EarthShape.cinit s name
        = .error (.invalidArgument ("unrecognized earth shape " ++ name))) := by
  constructor
  · intro h
    have hn : nativeEarthShapeNew name = .ok ⟨name⟩ := by
      simp [nativeEarthShapeNew, h]
    refine ⟨?_, ?_⟩
    · exact (⟨some s.nextAddr⟩,
        { s with nextAddr := s.nextAddr + 1,
                 shapes := (s.nextAddr, (⟨name⟩ : clib.EarthShape)) :: s.shapes })
    · simp [EarthShape.cinit, hn]
  · intro h
    simp [EarthShape.cinit, nativeEarthShapeNew, h]

/-- C5 witness: `"SPHERE"` is accepted and `"BANANA"` is rejected with
`InvalidArgument`. -/
theorem earthshape_name_resolution_witness :
    (∃ p, EarthShape.cinit State.empty "SPHERE" = .ok p) ∧
    EarthShape.cinit State.empty "BANANA"
      = .error (.invalidArgument ("unrecognized earth shape " ++ "BANANA")) :=
  ⟨(earthshape_name_resolution State.empty "SPHERE").1 (by decide),
   (earthshape_name_resolution State.empty "BANANA").2 (by decide)⟩

/-- C3: loading from a nonexistent path raises `FileNotFound`
(`GeoTessFileError`) for both the grid and the model loader, the native
loader is not invoked (second component `false`), and the heap is returned
unchanged. -/
theorem load_nonexistent_raises_filenotfound (fs : Fs) (s : State)
    (g : GeoTessGrid) (mp : GeoTessModel) (p q : String)
    (hp : fs p = .absent) (hq : fs q = .absent) :
    GeoTessGrid.loadGrid fs s g p
      = (some (.error (.fileNotFound "File not found."), s), false) ∧
    GeoTessModel.loadModel fs s mp q
      = (some (.error (.fileNotFound "Model file not found."), s), false) := by
  constructor
  · simp [GeoTessGrid.loadGrid, osPathExists, hp]
  · simp [GeoTessModel.loadModel, osPathExists, hq]

/-- C3 witness: on an everywhere-empty filesystem, loading path `"missing"`
into fresh grid and model proxies fails with `FileNotFound`, leaving the
empty heap untouched without a native call. -/
theorem load_nonexistent_raises_filenotfound_witness :
    GeoTessGrid.loadGrid (fun _ => .absent) State.empty ⟨0⟩ "missing"
      = (some (.error (.fileNotFound "File not found."), State.empty), false) ∧
    GeoTessModel.loadModel (fun _ => .absent) State.empty ⟨0⟩ "missing"
      = (some (.error (.fileNotFound "Model file not found."), State.empty), false) :=
  load_nonexistent_raises_filenotfound (fun _ => .absent) State.empty ⟨0⟩ ⟨0⟩
    "missing" "missing" rfl rfl

/-- C10: the pre-delegation check is only `os.path.exists`, so an existing
directory passes it; the path is forwarded to the native loader (second
component `true`) and the failure surfaced is the native `LoadError`, not
`FileNotFound`. -/
theorem exists_check_admits_directories (fs : Fs) (s : State)
    (g : GeoTessGrid) (mp : GeoTessModel) (p q : String)
    (gr : clib.GeoTessGrid) (mres : clib.GeoTessModel)
    (hp : fs p = .dir) (hq : fs q = .dir)
    (hg : hfind g.thisptr s.grids = some gr)
    (hm : hfind mp.thisptr s.models = some mres) :
    osPathExists fs p = true ∧ osPathExists fs q = true ∧
    GeoTessGrid.loadGrid fs s g p
      = (some (.error (.loadError "native grid parse failure"), s), true) ∧
    GeoTessModel.loadModel fs s mp q
      = (some (.error (.loadError "native model parse failure"), s), true) := by
  refine ⟨by simp [osPathExists, hp], by simp [osPathExists, hq], ?_, ?_⟩
  · simp [GeoTessGrid.loadGrid, osPathExists, hp, hg, nativeLoadGrid]
  · simp [GeoTessModel.loadModel, osPathExists, hq, hm, nativeLoadModel]

/-- C10 witness: on a filesystem where every path is a directory, loading
`"somedir"` into a live grid proxy at address 0 and a live model proxy at
address 1 passes the existence check, reaches the native loader and fails
with `LoadError`. -/
theorem exists_check_admits_directories_witness :
    GeoTessGrid.loadGrid (fun _ => .dir)
        ⟨2, [(0, ⟨0, 0, 0, [], ""⟩)], [], [], [(1, ⟨none, none, 0⟩)]⟩ ⟨0⟩ "somedir"
      = (some (.error (.loadError "native grid parse failure"),
          ⟨2, [(0, ⟨0, 0, 0, [], ""⟩)], [], [], [(1, ⟨none, none, 0⟩)]⟩), true) ∧
    GeoTessModel.loadModel (fun _ => .dir)
        ⟨2, [(0, ⟨0, 0, 0, [], ""⟩)], [], [], [(1, ⟨none, none, 0⟩)]⟩ ⟨1⟩ "somedir"
      = (some (.error (.loadError "native model parse failure"),
          ⟨2, [(0, ⟨0, 0, 0, [], ""⟩)], [], [], [(1, ⟨none, none, 0⟩)]⟩), true) := by
  have h := exists_check_admits_directories (fun _ => .dir)
    ⟨2, [(0, ⟨0, 0, 0, [], ""⟩)], [], [], [(1, ⟨none, none, 0⟩)]⟩ ⟨0⟩ ⟨1⟩
    "somedir" "somedir" ⟨0, 0, 0, [], ""⟩ ⟨none, none, 0⟩ rfl rfl (by decide) (by decide)
  exact ⟨h.2.2.1, h.2.2.2⟩

/-- C6: every grid query accessor is a pure read — it returns the heap it was
given, unchanged — and `getVertex` yields the queried vertex for an in-range
index and an `IndexError` for any index outside the resource's valid
range. -/
theorem grid_accessors_pure (s : State) (g : GeoTessGrid)
    (gr : clib.GeoTessGrid) (i : Int)
    (hg : hfind g.thisptr s.grids = some gr) :
    GeoTessGrid.getNLevels s g = some (gr.nLevels, s) ∧
    GeoTessGrid.getNTriangles s g = some (gr.nTriangles, s) ∧
    GeoTessGrid.getNTessellations s g = some (gr.nTessellations, s) ∧
    GeoTessGrid.toString s g = some (gr.descr, s) ∧
    (∀ h : 0 ≤ i ∧ i.toNat < gr.vertices.length,
      GeoTessGrid.getVertex s g i = some (.ok (gr.vertices.get ⟨i.toNat, h.2⟩), s)) ∧
    (¬ (0 ≤ i ∧ i.toNat < gr.vertices.length) →
      GeoTessGrid.getVertex s g i
        = some (.error (.indexError "vertex index out of range"), s)) := by
  refine ⟨?_, ?_, ?_, ?_, ?_, ?_⟩
  · simp [GeoTessGrid.getNLevels, hg]
  · simp [GeoTessGrid.getNTriangles, hg]
  · simp [GeoTessGrid.getNTessellations, hg]
  · simp [GeoTessGrid.toString, hg]
  · intro h
    have hi : i < (gr.vertices.length : Int) := by omega
    simp [GeoTessGrid.getVertex, hg, nativeGetVertex, h, hi]
  · intro h
    simp [GeoTessGrid.getVertex, hg, nativeGetVertex, h]

/-- C6 witness: on a heap holding one grid with a single vertex, the counts,
description, the in-range query at index 0 and the out-of-range query at
index 1 all behave as stated and leave the heap unchanged. -/
theorem grid_accessors_pure_witness :
    (GeoTessGrid.getNLevels ⟨1, [(0, ⟨3, 20, 1, [(1, 0, 0)], "g"⟩)], [], [], []⟩ ⟨0⟩
       = some (3, ⟨1, [(0, ⟨3, 20, 1, [(1, 0, 0)], "g"⟩)], [], [], []⟩)) ∧
    (GeoTessGrid.getVertex ⟨1, [(0, ⟨3, 20, 1, [(1, 0, 0)], "g"⟩)], [], [], []⟩ ⟨0⟩ 0
       = some (.ok (1, 0, 0), ⟨1, [(0, ⟨3, 20, 1, [(1, 0, 0)], "g"⟩)], [], [], []⟩)) ∧
    (GeoTessGrid.getVertex ⟨1, [(0, ⟨3, 20, 1, [(1, 0, 0)], "g"⟩)], [], [], []⟩ ⟨0⟩ 1
       = some (.error (.indexError "vertex index out of range"),
           ⟨1, [(0, ⟨3, 20, 1, [(1, 0, 0)], "g"⟩)], [], [], []⟩)) := by
  have h := grid_accessors_pure ⟨1, [(0, ⟨3, 20, 1, [(1, 0, 0)], "g"⟩)], [], [], []⟩
    ⟨0⟩ ⟨3, 20, 1, [(1, 0, 0)], "g"⟩ 0 (by decide)
  have h1 := grid_accessors_pure ⟨1, [(0, ⟨3, 20, 1, [(1, 0, 0)], "g"⟩)], [], [], []⟩
    ⟨0⟩ ⟨3, 20, 1, [(1, 0, 0)], "g"⟩ 1 (by decide)
  exact ⟨h.1, h.2.2.2.2.1 (by constructor <;> decide), h1.2.2.2.2.2 (by decide)⟩

/-- C8: `getVectorDegrees` returns a tuple of exactly 3 components whose
allocation identity is fresh — distinct from every previously allocated
Python object (any identity below `pyNext`) and from the method's own
internal `array.array` buffer. -/
theorem getvectordegrees_fresh_triple (native : Rat → Rat → Vec3)
    (pyNext : Nat) (lat lon : Rat) (prevId : Nat) (hprev : prevId < pyNext) :
    (EarthShape.getVectorDegrees native pyNext lat lon).1.elems.length = 3 ∧
    (EarthShape.getVectorDegrees native pyNext lat lon).1.objId ≠ prevId ∧
    pyNext ≤ (EarthShape.getVectorDegrees native pyNext lat lon).1.objId ∧
    (EarthShape.getVectorDegrees native pyNext lat lon).1.objId ≠ pyNext ∧
    (EarthShape.getVectorDegrees native pyNext lat lon).1.objId
      < (EarthShape.getVectorDegrees native pyNext lat lon).2 := by
  refine ⟨rfl, ?_, ?_, ?_, ?_⟩ <;> (simp [EarthShape.getVectorDegrees]; try omega)

/-- C8 witness: with a trivial native fill, one prior allocation (identity 0,
`pyNext = 1`), the returned tuple has 3 elements and identity 2, distinct
from the prior object and from the internal buffer (identity 1). -/
theorem getvectordegrees_fresh_triple_witness :
    (EarthShape.getVectorDegrees (fun _ _ => (0, 0, 0)) 1 0 0).1.elems.length = 3 ∧
    (EarthShape.getVectorDegrees (fun _ _ => (0, 0, 0)) 1 0 0).1.objId ≠ 0 ∧
    1 ≤ (EarthShape.getVectorDegrees (fun _ _ => (0, 0, 0)) 1 0 0).1.objId ∧
    (EarthShape.getVectorDegrees (fun _ _ => (0, 0, 0)) 1 0 0).1.objId ≠ 1 ∧
    (EarthShape.getVectorDegrees (fun _ _ => (0, 0, 0)) 1 0 0).1.objId
      < (EarthShape.getVectorDegrees (fun _ _ => (0, 0, 0)) 1 0 0).2 :=
  getvectordegrees_fresh_triple (fun _ _ => (0, 0, 0)) 1 0 0 0 (by decide)

/-- C2: constructing a model from a grid and metadata builds it on fresh
copies of both native resources: the model's grid and metadata descriptions
equal those of the originals at construction time, and they stay equal after
the caller's original resources are overwritten in place with arbitrary new
contents. -/
theorem model_cinit_copy_isolation (s : State) (g : GeoTessGrid)
    (m : GeoTessMetaData) (gr newGr : clib.GeoTessGrid)
    (mr newMr : clib.GeoTessMetaData)
    (hwf : s.WF)
    (hg : hfind g.thisptr s.grids = some gr)
    (hm : hfind m.thisptr s.metas = some mr) :
    ∃ mp s', GeoTessModel.cinit s (some g) (some m) = some (.ok (mp, s')) ∧
      GeoTessModel.ownedGridDescr s' mp = some gr.descr ∧
      GeoTessModel.ownedMetaDescr s' mp = some mr.descr ∧
      GeoTessModel.ownedGridDescr
        { s' with grids := hset g.thisptr newGr s'.grids,
                  metas := hset m.thisptr newMr s'.metas } mp = some gr.descr ∧
      GeoTessModel.ownedMetaDescr
        { s' with grids := hset g.thisptr newGr s'.grids,
                  metas := hset m.thisptr newMr s'.metas } mp = some mr.descr := by
  have hga : g.thisptr < s.nextAddr := hwf.1 _ (hfind_mem hg)
  have hma : m.thisptr < s.nextAddr := hwf.2.1 _ (hfind_mem hm)
  have hgne : s.nextAddr ≠ g.thisptr := by omega
  have hmne : s.nextAddr + 1 ≠ m.thisptr := by omega
  refine ⟨⟨s.nextAddr + 3⟩, { s with
      nextAddr := s.nextAddr + 4,
      grids := (s.nextAddr, gr) :: s.grids,
      metas := (s.nextAddr + 1, mr) :: s.metas,
      shapes := (s.nextAddr + 2, (⟨mr.earthShape⟩ : clib.EarthShape)) :: s.shapes,
      models := (s.nextAddr + 3,
        (⟨some s.nextAddr, some (s.nextAddr + 1), s.nextAddr + 2⟩ : clib.GeoTessModel))
        :: s.models }, ?_, ?_, ?_, ?_, ?_⟩
  · simp [GeoTessModel.cinit, hg, hm]
  · simp [GeoTessModel.ownedGridDescr, hfind]
  · simp [GeoTessModel.ownedMetaDescr, hfind]
  · simp [GeoTessModel.ownedGridDescr, hfind, hset, hgne, hmne]
  · simp [GeoTessModel.ownedMetaDescr, hfind, hset, hgne, hmne]

/-- C2 witness: a heap with one grid ("orig grid") and one metadata
("orig meta"); after model construction, overwriting both originals in place
with "mutated" contents leaves the model's own descriptions unchanged. -/
theorem model_cinit_copy_isolation_witness :
    ∃ mp s',
      GeoTessModel.cinit
          ⟨2, [(0, ⟨1, 2, 1, [], "orig grid"⟩)],
              [(1, ⟨"WGS84", "orig meta", "", [], "", "", "", "", ""⟩)], [], []⟩
          (some ⟨0⟩) (some ⟨1⟩)
        = some (.ok (mp, s')) ∧
      GeoTessModel.ownedGridDescr s' mp = some "orig grid" ∧
      GeoTessModel.ownedMetaDescr s' mp = some "orig meta" ∧
      GeoTessModel.ownedGridDescr
        { s' with grids := hset 0 ⟨1, 2, 1, [], "mutated grid"⟩ s'.grids,
                  metas := hset 1 ⟨"WGS84", "mutated meta", "", [], "", "", "", "", ""⟩ s'.metas }
        mp = some "orig grid" ∧
      GeoTessModel.ownedMetaDescr
        { s' with grids := hset 0 ⟨1, 2, 1, [], "mutated grid"⟩ s'.grids,
                  metas := hset 1 ⟨"WGS84", "mutated meta", "", [], "", "", "", "", ""⟩ s'.metas }
        mp = some "orig meta" :=
  model_cinit_copy_isolation
    ⟨2, [(0, ⟨1, 2, 1, [], "orig grid"⟩)],
        [(1, ⟨"WGS84", "orig meta", "", [], "", "", "", "", ""⟩)], [], []⟩
    ⟨0⟩ ⟨1⟩ ⟨1, 2, 1, [], "orig grid"⟩ ⟨1, 2, 1, [], "mutated grid"⟩
    ⟨"WGS84", "orig meta", "", [], "", "", "", "", ""⟩
    ⟨"WGS84", "mutated meta", "", [], "", "", "", "", ""⟩
    (by decide) (by decide) (by decide)

/-- C1 (code evaluation at the failing input): build an empty model, obtain
its earth-shape view via `getEarthShape`, then run the view's `__dealloc__`.
Because the view's `thisptr` is non-NULL, `__dealloc__` deletes the
pointed-to resource, and that resource is the shape embedded in (and owned
by) the model: after the release, the model's shape address no longer
resolves.  So releasing the non-owning view is not a no-op on the native
resource, contradicting the claim (and realising the double-free hazard the
module docstring itself flags). -/
theorem earthshape_view_dealloc_destroys_model_shape :
    ∃ mp s', GeoTessModel.cinit State.empty = some (.ok (mp, s')) ∧
      ∃ es, GeoTessModel.getEarthShape s' mp = some es ∧
        ∃ mres, hfind mp.thisptr s'.models = some mres ∧
          hfind mres.shapePtr s'.shapes = some ⟨"WGS84"⟩ ∧
          hfind mres.shapePtr (EarthShape.dealloc s' es).shapes = none :=
  ⟨⟨1⟩, ⟨2, [], [], [(0, ⟨"WGS84"⟩)], [(1, ⟨none, none, 0⟩)]⟩, rfl,
    ⟨some 0⟩, rfl, ⟨none, none, 0⟩, rfl, rfl, rfl⟩
